import Mathlib

/-!
Shallow embedding of the bike-fit analysis core of this repository.

The embedded code lives in two files:
- `src/app/api/analyze/route.ts`: KOPS analysis, postural consistency,
  the enhanced recommendation engine, the enhanced score, and the
  two-photo pipeline of the POST handler.
- the pose-analysis library file (unnamed in the snapshot): the MediaPipe
  landmark index table and the per-photo feature extractor `analyzeBikeFit`.

JavaScript numbers are modelled as rationals (ℚ); `Math.round` as
round-half-up on ℚ.  Arrays of landmarks are lists of `Option Landmark`:
`none` stands for an undefined/null slot or an out-of-range index, so the
falsiness checks (`!knee`, `!shoulder`, ...) of the source are the `none`
cases here.  The transcendental pieces of the geometry engine
(`Math.atan2`, `Math.sqrt`, `Math.PI`) are collected in a `GeometryOracle`
parameter: every theorem about the feature extractor holds for an
arbitrary oracle, because the extractor never branches on those values.
Console logging and the free-text `description` strings (presentation
text interpolating an angle) are elided.
-/

namespace BikeFit

/-- JavaScript `Math.round`: round half toward positive infinity. -/
def jround (q : ℚ) : ℤ := ⌊q + 1/2⌋

/-- The source's one-decimal rounding `Math.round(x * 10) / 10`. -/
def round1 (q : ℚ) : ℚ := (jround (q * 10) : ℚ) / 10

/-- JavaScript `v || d` for an optional numeric `v`: `0` and `undefined`
are falsy, so both fall back to the default `d`. -/
def jsOr (v : Option ℚ) (d : ℚ) : ℚ :=
  match v with
  | some w => if w = 0 then d else w
  | none => d

/-- MediaPipe landmark (`types/index.ts`): normalized coordinates plus an
optional visibility confidence. -/
structure Landmark where
  x : ℚ
  y : ℚ
  z : ℚ
  visibility : Option ℚ := none
deriving DecidableEq

/-- JavaScript `landmarks[i]` on a possibly short, possibly sparse array:
`undefined` (here `none`) when `i` is out of range or the slot is empty. -/
def getLm (landmarks : List (Option Landmark)) (i : ℕ) : Option Landmark :=
  (landmarks.get? i).join

/-- A planar point `{x, y}` as used in `KOPSAnalysis`. -/
structure Point2D where
  x : ℚ
  y : ℚ
deriving DecidableEq

/-- The `'6-oclock' | '3-oclock'` string union of the source. -/
inductive PedalPosition where
  | sixOClock
  | threeOClock
deriving DecidableEq

/-- `PoseAnalysis` of `types/index.ts`.  The base64 `imageData` field is
presentation-only and elided. -/
structure PoseAnalysis where
  kneeAngle : ℚ
  torsoAngle : ℚ
  elbowAngle : ℚ
  reachDistance : ℚ
  saddleHeight : ℚ
  landmarks : Option (List (Option Landmark)) := none
  imageWidth : Option ℚ := none
  imageHeight : Option ℚ := none
  pedalPosition : Option PedalPosition := none
deriving DecidableEq

/-- `KOPSAnalysis` of `types/index.ts`. -/
structure KOPSAnalysis where
  kneePosition : Point2D
  pedalPosition : Point2D
  horizontalOffset : ℚ
  isOptimal : Bool
deriving DecidableEq

/-- `PosturalConsistency` of `types/index.ts`. -/
structure PosturalConsistency where
  torsoAngleDifference : ℚ
  elbowAngleDifference : ℚ
  isConsistent : Bool
  issues : List String
deriving DecidableEq

/-- The `type` union of `FitRecommendation`. -/
inductive RecType where
  | saddle_height
  | saddle_fore_aft
  | handlebar_height
  | stem_length
  | cleat_position
  | core_stability
deriving DecidableEq

/-- The `priority` union of `FitRecommendation`. -/
inductive Priority where
  | high
  | medium
  | low
deriving DecidableEq

/-- The `basedOn` union of `FitRecommendation`. -/
inductive BasedOn where
  | knee_angle
  | torso_angle
  | elbow_angle
  | kops
  | postural_consistency
deriving DecidableEq

/-- `FitRecommendation` of `types/index.ts`; the free-text `description`
(presentation string interpolating the measured angle) is elided. -/
structure FitRecommendation where
  type : RecType
  currentValue : ℚ
  recommendedValue : ℚ
  adjustment : String
  priority : Priority
  basedOn : BasedOn
deriving DecidableEq

/-- The local landmark-index object of `calculateKOPS` in `route.ts`
(`POSE_LANDMARKS` there): hip 23, knee 25, ankle 27. -/
def RouteLandmarks.RIGHT_HIP : ℕ := 23

/-- Index `calculateKOPS` reads the knee from. -/
def RouteLandmarks.RIGHT_KNEE : ℕ := 25

/-- Index `calculateKOPS` reads the ankle (pedal-axle stand-in) from. -/
def RouteLandmarks.RIGHT_ANKLE : ℕ := 27

/-- `calculateKOPS` of `route.ts`, lines 14-37.  The `throw` on a missing
knee or ankle is the `none` result. -/
def calculateKOPS (landmarks : List (Option Landmark)) (imageWidth : Option ℚ) :
    Option KOPSAnalysis :=
  match getLm landmarks RouteLandmarks.RIGHT_KNEE,
        getLm landmarks RouteLandmarks.RIGHT_ANKLE with
  | some knee, some ankle =>
    let horizontalOffset := (knee.x - ankle.x) * jsOr imageWidth 640 * 0.05
    some { kneePosition := ⟨knee.x, knee.y⟩
           pedalPosition := ⟨ankle.x, ankle.y⟩
           horizontalOffset := horizontalOffset
           isOptimal := decide (|horizontalOffset| ≤ 2) }
  | _, _ => none

/-- Issue string pushed when the torso angles differ by more than 10°. -/
def torsoInstabilityIssue : String :=
  "Significant torso angle variation between pedal positions suggests instability"

/-- Issue string pushed when the elbow angles differ by more than 15°. -/
def elbowInstabilityIssue : String :=
  "Large elbow angle variation indicates excessive reach or poor core stability"

/-- `analyzePosturalConsistency` of `route.ts`, lines 40-63. -/
def analyzePosturalConsistency (sixOClockAnalysis threeOClockAnalysis : PoseAnalysis) :
    PosturalConsistency :=
  let torsoAngleDifference := |sixOClockAnalysis.torsoAngle - threeOClockAnalysis.torsoAngle|
  let elbowAngleDifference := |sixOClockAnalysis.elbowAngle - threeOClockAnalysis.elbowAngle|
  let issues :=
    (if torsoAngleDifference > 10 then [torsoInstabilityIssue] else [])
      ++ (if elbowAngleDifference > 15 then [elbowInstabilityIssue] else [])
  { torsoAngleDifference := torsoAngleDifference
    elbowAngleDifference := elbowAngleDifference
    isConsistent := issues.length == 0
    issues := issues }

/-- Numeric priority order of the sort comparator in
`generateEnhancedRecommendations` (`high=3, medium=2, low=1`). -/
def prioVal (p : Priority) : ℤ :=
  match p with
  | Priority.high => 3
  | Priority.medium => 2
  | Priority.low => 1

/-- Rule 1 of `generateEnhancedRecommendations` (`route.ts` lines 86-106):
saddle height from the six-o'clock knee angle, optimal band [25, 35]. -/
def saddleHeightRule (sixOClockAnalysis : PoseAnalysis) : List FitRecommendation :=
  if sixOClockAnalysis.kneeAngle < 25 then
    [{ type := RecType.saddle_height
       currentValue := sixOClockAnalysis.kneeAngle
       recommendedValue := 30
       adjustment := "Raise saddle by 5-15mm"
       priority := Priority.high
       basedOn := BasedOn.knee_angle }]
  else if sixOClockAnalysis.kneeAngle > 35 then
    [{ type := RecType.saddle_height
       currentValue := sixOClockAnalysis.kneeAngle
       recommendedValue := 30
       adjustment := "Lower saddle by 5-15mm"
       priority := Priority.high
       basedOn := BasedOn.knee_angle }]
  else []

/-- The three-o'clock sanity check of `route.ts` lines 108-112: a
`console.warn` condition only; it never pushes a recommendation. -/
def threeOClockSanityFlag (threeOClockAnalysis : PoseAnalysis) : Bool :=
  decide (threeOClockAnalysis.kneeAngle < 60) || decide (threeOClockAnalysis.kneeAngle > 100)

/-- Rule 3 of `generateEnhancedRecommendations` (`route.ts` lines 114-137):
saddle fore/aft from the KOPS result. -/
def kopsRule (kopsAnalysis : KOPSAnalysis) : List FitRecommendation :=
  if !kopsAnalysis.isOptimal then
    if kopsAnalysis.horizontalOffset > 2 then
      [{ type := RecType.saddle_fore_aft
         currentValue := kopsAnalysis.horizontalOffset
         recommendedValue := 0
         adjustment := "Move saddle backward 5-10mm"
         priority := Priority.medium
         basedOn := BasedOn.kops }]
    else if kopsAnalysis.horizontalOffset < -2 then
      [{ type := RecType.saddle_fore_aft
         currentValue := kopsAnalysis.horizontalOffset
         recommendedValue := 0
         adjustment := "Move saddle forward 5-10mm"
         priority := Priority.medium
         basedOn := BasedOn.kops }]
    else []
  else []

/-- Rule 4 of `generateEnhancedRecommendations` (`route.ts` lines 139-161):
handlebar height from the mean torso angle, optimal band [35, 55]. -/
def handlebarRule (sixOClockAnalysis threeOClockAnalysis : PoseAnalysis) :
    List FitRecommendation :=
  let avgTorsoAngle := (sixOClockAnalysis.torsoAngle + threeOClockAnalysis.torsoAngle) / 2
  if avgTorsoAngle < 35 then
    [{ type := RecType.handlebar_height
       currentValue := avgTorsoAngle
       recommendedValue := 45
       adjustment := "Raise handlebars by 10-20mm or use shorter stem"
       priority := Priority.medium
       basedOn := BasedOn.torso_angle }]
  else if avgTorsoAngle > 55 then
    [{ type := RecType.handlebar_height
       currentValue := avgTorsoAngle
       recommendedValue := 45
       adjustment := "Lower handlebars by 10-20mm"
       priority := Priority.medium
       basedOn := BasedOn.torso_angle }]
  else []

/-- Rule 5 of `generateEnhancedRecommendations` (`route.ts` lines 163-185):
stem length from the mean elbow angle, optimal band [150, 165]. -/
def stemRule (sixOClockAnalysis threeOClockAnalysis : PoseAnalysis) :
    List FitRecommendation :=
  let avgElbowAngle := (sixOClockAnalysis.elbowAngle + threeOClockAnalysis.elbowAngle) / 2
  if avgElbowAngle < 150 then
    [{ type := RecType.stem_length
       currentValue := avgElbowAngle
       recommendedValue := 155
       adjustment := "Try a longer stem (+10-20mm) or move saddle back"
       priority := Priority.medium
       basedOn := BasedOn.elbow_angle }]
  else if avgElbowAngle > 165 then
    [{ type := RecType.stem_length
       currentValue := avgElbowAngle
       recommendedValue := 155
       adjustment := "Try a shorter stem (-10-20mm) or move saddle forward"
       priority := Priority.medium
       basedOn := BasedOn.elbow_angle }]
  else []

/-- Rule 6 of `generateEnhancedRecommendations` (`route.ts` lines 187-198):
core stability when the two photos are posturally inconsistent. -/
def coreStabilityRule (posturalConsistency : PosturalConsistency) :
    List FitRecommendation :=
  if !posturalConsistency.isConsistent then
    [{ type := RecType.core_stability
       currentValue := max posturalConsistency.torsoAngleDifference
         posturalConsistency.elbowAngleDifference
       recommendedValue := 5
       adjustment := "Focus on core strengthening and bike fit stability"
       priority := Priority.low
       basedOn := BasedOn.postural_consistency }]
  else []

/-- The recommendation list in rule-evaluation (push) order, before the
final sort of `route.ts` lines 200-203. -/
def rawRecommendations (sixOClockAnalysis threeOClockAnalysis : PoseAnalysis)
    (kopsAnalysis : KOPSAnalysis) (posturalConsistency : PosturalConsistency) :
    List FitRecommendation :=
  saddleHeightRule sixOClockAnalysis
    ++ kopsRule kopsAnalysis
    ++ handlebarRule sixOClockAnalysis threeOClockAnalysis
    ++ stemRule sixOClockAnalysis threeOClockAnalysis
    ++ coreStabilityRule posturalConsistency

/-- Descending-priority order of the sort comparator
`(a, b) => priorityOrder[b.priority] - priorityOrder[a.priority]`:
`a` may stay before `b` exactly when `prioVal b ≤ prioVal a`. -/
def prioGE (a b : FitRecommendation) : Prop :=
  prioVal b.priority ≤ prioVal a.priority

instance : DecidableRel prioGE := fun a b =>
  inferInstanceAs (Decidable (prioVal b.priority ≤ prioVal a.priority))

instance : IsTotal FitRecommendation prioGE :=
  ⟨fun a b => le_total (prioVal b.priority) (prioVal a.priority)⟩

instance : IsTrans FitRecommendation prioGE :=
  ⟨fun _ _ _ h1 h2 => le_trans h2 h1⟩

/-- `generateEnhancedRecommendations` of `route.ts`, lines 66-204.
JavaScript `Array.prototype.sort` is stable and any stable sort agreeing
with the comparator's total preorder produces the same list, so it is
embedded as a stable insertion sort under `prioGE`. -/
def generateEnhancedRecommendations (sixOClockAnalysis threeOClockAnalysis : PoseAnalysis)
    (kopsAnalysis : KOPSAnalysis) (posturalConsistency : PosturalConsistency) :
    List FitRecommendation :=
  List.insertionSort prioGE
    (rawRecommendations sixOClockAnalysis threeOClockAnalysis kopsAnalysis posturalConsistency)

/-- `calculateEnhancedScore` of `route.ts`, lines 207-247, translated
deduction step by deduction step. -/
def calculateEnhancedScore (sixOClockAnalysis threeOClockAnalysis : PoseAnalysis)
    (kopsAnalysis : KOPSAnalysis) (posturalConsistency : PosturalConsistency) : ℤ :=
  let score : ℚ := 100
  let score := if sixOClockAnalysis.kneeAngle < 25 ∨ sixOClockAnalysis.kneeAngle > 35 then
      score - min |sixOClockAnalysis.kneeAngle - 25| |sixOClockAnalysis.kneeAngle - 35| * 2
    else score
  let score := if threeOClockAnalysis.kneeAngle < 60 ∨ threeOClockAnalysis.kneeAngle > 100 then
      score - 10
    else score
  let avgTorsoAngle := (sixOClockAnalysis.torsoAngle + threeOClockAnalysis.torsoAngle) / 2
  let score := if avgTorsoAngle < 35 ∨ avgTorsoAngle > 55 then
      score - |avgTorsoAngle - 45| * 1
    else score
  let avgElbowAngle := (sixOClockAnalysis.elbowAngle + threeOClockAnalysis.elbowAngle) / 2
  let score := if avgElbowAngle < 150 ∨ avgElbowAngle > 165 then
      score - |avgElbowAngle - 157.5| * 0.5
    else score
  let score := if !kopsAnalysis.isOptimal then
      score - |kopsAnalysis.horizontalOffset| * 2
    else score
  let score := if !posturalConsistency.isConsistent then
      score - (posturalConsistency.torsoAngleDifference
        + posturalConsistency.elbowAngleDifference) * 0.5
    else score
  max 0 (min 100 (jround score))

/-- The six-o'clock knee deduction term of `calculateEnhancedScore`
(lines 216-219): deviation from the nearer band edge, doubled. -/
def kneeDeduction (sixOClockAnalysis : PoseAnalysis) : ℚ :=
  if sixOClockAnalysis.kneeAngle < 25 ∨ sixOClockAnalysis.kneeAngle > 35 then
    min |sixOClockAnalysis.kneeAngle - 25| |sixOClockAnalysis.kneeAngle - 35| * 2
  else 0

/-- The three-o'clock knee deduction term of `calculateEnhancedScore`
(lines 221-224): a fixed 10 points outside [60, 100]. -/
def threeOClockDeduction (threeOClockAnalysis : PoseAnalysis) : ℚ :=
  if threeOClockAnalysis.kneeAngle < 60 ∨ threeOClockAnalysis.kneeAngle > 100 then 10 else 0

/-- The torso deduction term of `calculateEnhancedScore` (lines 226-229). -/
def torsoDeduction (sixOClockAnalysis threeOClockAnalysis : PoseAnalysis) : ℚ :=
  let avgTorsoAngle := (sixOClockAnalysis.torsoAngle + threeOClockAnalysis.torsoAngle) / 2
  if avgTorsoAngle < 35 ∨ avgTorsoAngle > 55 then |avgTorsoAngle - 45| * 1 else 0

/-- The elbow deduction term of `calculateEnhancedScore` (lines 231-234). -/
def elbowDeduction (sixOClockAnalysis threeOClockAnalysis : PoseAnalysis) : ℚ :=
  let avgElbowAngle := (sixOClockAnalysis.elbowAngle + threeOClockAnalysis.elbowAngle) / 2
  if avgElbowAngle < 150 ∨ avgElbowAngle > 165 then |avgElbowAngle - 157.5| * 0.5 else 0

/-- The KOPS penalty term of `calculateEnhancedScore` (lines 236-239). -/
def kopsDeduction (kopsAnalysis : KOPSAnalysis) : ℚ :=
  if !kopsAnalysis.isOptimal then |kopsAnalysis.horizontalOffset| * 2 else 0

/-- The postural-consistency penalty term of `calculateEnhancedScore`
(lines 241-244). -/
def consistencyDeduction (posturalConsistency : PosturalConsistency) : ℚ :=
  if !posturalConsistency.isConsistent then
    (posturalConsistency.torsoAngleDifference
      + posturalConsistency.elbowAngleDifference) * 0.5
  else 0

/-- The neutral default `KOPSAnalysis` substituted by the POST handler
when `calculateKOPS` throws (`route.ts` lines 341-350). -/
def defaultKOPSAnalysis : KOPSAnalysis :=
  { kneePosition := ⟨0.5, 0.5⟩
    pedalPosition := ⟨0.5, 0.5⟩
    horizontalOffset := 0
    isOptimal := true }

/-- Summary for scores of at least 80 (`route.ts` line 379). -/
def excellentSummary : String :=
  "Excellent bike fit! Your two-position analysis shows consistent, optimal positioning."

/-- Summary for scores in [60, 79] (`route.ts` line 381). -/
def goodSummary : String :=
  "Good bike fit foundation. The comprehensive analysis identified specific areas for improvement."

/-- Summary for scores below 60 (`route.ts` line 382). -/
def significantSummary : String :=
  "Comprehensive analysis reveals significant opportunities to optimize your bike fit for comfort and performance."

/-- `EnhancedAnalysisResult` of `types/index.ts`. -/
structure EnhancedAnalysisResult where
  sixOClockAnalysis : PoseAnalysis
  threeOClockAnalysis : PoseAnalysis
  kopsAnalysis : KOPSAnalysis
  posturalConsistency : PosturalConsistency
  recommendations : List FitRecommendation
  overallScore : ℤ
  summary : String
deriving DecidableEq

/-- The two-photo branch of the POST handler (`route.ts` lines 331-386),
after the two position-tagged photos have been found: KOPS with its local
default fallback, consistency, recommendations, score and summary. -/
def twoPhotoAnalysis (sixOClockAnalysis threeOClockAnalysis : PoseAnalysis) :
    EnhancedAnalysisResult :=
  let kopsAnalysis :=
    (calculateKOPS (threeOClockAnalysis.landmarks.getD []) threeOClockAnalysis.imageWidth).getD
      defaultKOPSAnalysis
  let posturalConsistency := analyzePosturalConsistency sixOClockAnalysis threeOClockAnalysis
  let recommendations := generateEnhancedRecommendations sixOClockAnalysis threeOClockAnalysis
    kopsAnalysis posturalConsistency
  let overallScore := calculateEnhancedScore sixOClockAnalysis threeOClockAnalysis
    kopsAnalysis posturalConsistency
  { sixOClockAnalysis := sixOClockAnalysis
    threeOClockAnalysis := threeOClockAnalysis
    kopsAnalysis := kopsAnalysis
    posturalConsistency := posturalConsistency
    recommendations := recommendations
    overallScore := overallScore
    summary :=
      if overallScore ≥ 80 then excellentSummary
      else if overallScore ≥ 60 then goodSummary
      else significantSummary }

/-- MediaPipe landmark index table of the pose-analysis library file. -/
def PoseLandmarks.LEFT_SHOULDER : ℕ := 11

/-- Right shoulder index of the feature extractor. -/
def PoseLandmarks.RIGHT_SHOULDER : ℕ := 12

/-- Left elbow index. -/
def PoseLandmarks.LEFT_ELBOW : ℕ := 13

/-- Right elbow index of the feature extractor. -/
def PoseLandmarks.RIGHT_ELBOW : ℕ := 14

/-- Left wrist index. -/
def PoseLandmarks.LEFT_WRIST : ℕ := 15

/-- Right wrist index of the feature extractor. -/
def PoseLandmarks.RIGHT_WRIST : ℕ := 16

/-- Left hip index. -/
def PoseLandmarks.LEFT_HIP : ℕ := 23

/-- Right hip index of the feature extractor. -/
def PoseLandmarks.RIGHT_HIP : ℕ := 24

/-- Left knee index. -/
def PoseLandmarks.LEFT_KNEE : ℕ := 25

/-- Right knee index of the feature extractor. -/
def PoseLandmarks.RIGHT_KNEE : ℕ := 26

/-- Left ankle index. -/
def PoseLandmarks.LEFT_ANKLE : ℕ := 27

/-- Right ankle index of the feature extractor. -/
def PoseLandmarks.RIGHT_ANKLE : ℕ := 28

/-- The floating-point transcendentals of the geometry engine
(`Math.atan2`, `Math.sqrt`, `Math.PI`), treated as an arbitrary oracle:
the feature extractor never branches on their values, so every theorem
below holds for any oracle. -/
structure GeometryOracle where
  atan2 : ℚ → ℚ → ℚ
  sqrt : ℚ → ℚ
  pi : ℚ

/-- `calculateInteriorAngle` of the pose-analysis library: unsigned angle
at vertex `b`, folded into [0, 180]. -/
def calculateInteriorAngle (g : GeometryOracle) (a b c : Landmark) : ℚ :=
  let radians := g.atan2 (c.y - b.y) (c.x - b.x) - g.atan2 (a.y - b.y) (a.x - b.x)
  let angle := |radians * 180 / g.pi|
  if angle > 180 then 360 - angle else angle

/-- `calculateKneeBendAngle`: degrees of bend from a straight leg. -/
def calculateKneeBendAngle (g : GeometryOracle) (hip knee ankle : Landmark) : ℚ :=
  180 - calculateInteriorAngle g hip knee ankle

/-- `calculateDistance`: planar Euclidean distance via the sqrt oracle. -/
def calculateDistance (g : GeometryOracle) (a b : Landmark) : ℚ :=
  g.sqrt ((a.x - b.x) ^ 2 + (a.y - b.y) ^ 2)

/-- Error message of the landmark-count check in `analyzeBikeFit`. -/
def insufficientLandmarksMsg : String := "Insufficient pose landmarks detected"

/-- Error message of the required-joint check in `analyzeBikeFit`. -/
def missingBodyPartsMsg : String := "Could not detect all required body parts"

/-- `analyzeBikeFit` of the pose-analysis library (per-photo feature
extractor): the two `throw`s become `Except.error`.  The optional
`imageElement` of the source only supplies the stored image dimensions,
passed here directly as optional numbers. -/
def analyzeBikeFit (g : GeometryOracle) (landmarks : List (Option Landmark))
    (pedalPosition : PedalPosition) (imageWidth imageHeight : Option ℚ) :
    Except String PoseAnalysis :=
  if landmarks.length < 33 then
    Except.error insufficientLandmarksMsg
  else
    match getLm landmarks PoseLandmarks.RIGHT_SHOULDER,
          getLm landmarks PoseLandmarks.RIGHT_ELBOW,
          getLm landmarks PoseLandmarks.RIGHT_WRIST,
          getLm landmarks PoseLandmarks.RIGHT_HIP,
          getLm landmarks PoseLandmarks.RIGHT_KNEE,
          getLm landmarks PoseLandmarks.RIGHT_ANKLE with
    | some shoulder, some elbow, some wrist, some hip, some knee, some ankle =>
      let kneeBendAngle := calculateKneeBendAngle g hip knee ankle
      let verticalReference : Landmark := { x := hip.x, y := hip.y - 0.1, z := hip.z }
      let torsoAngle := calculateInteriorAngle g verticalReference hip shoulder
      let elbowAngle := calculateInteriorAngle g shoulder elbow wrist
      let reachDistance := |shoulder.x - wrist.x| * 100
      let saddleHeight := calculateDistance g hip ankle * 100
      Except.ok
        { kneeAngle := round1 kneeBendAngle
          torsoAngle := round1 torsoAngle
          elbowAngle := round1 elbowAngle
          reachDistance := round1 reachDistance
          saddleHeight := round1 saddleHeight
          landmarks := some landmarks
          imageWidth := imageWidth
          imageHeight := imageHeight
          pedalPosition := some pedalPosition }
    | _, _, _, _, _, _ => Except.error missingBodyPartsMsg

/-- The sequential score of the source equals 100 minus the sum of the
six deduction terms, clamped and rounded. -/
lemma score_eq_deductions (six three : PoseAnalysis) (kops : KOPSAnalysis)
    (pc : PosturalConsistency) :
    calculateEnhancedScore six three kops pc
      = max 0 (min 100 (jround (100 -
          (kneeDeduction six + threeOClockDeduction three + torsoDeduction six three
            + elbowDeduction six three + kopsDeduction kops + consistencyDeduction pc)))) := by
  simp only [calculateEnhancedScore, kneeDeduction, threeOClockDeduction, torsoDeduction,
    elbowDeduction, kopsDeduction, consistencyDeduction]
  split_ifs <;>
    exact congrArg (fun q => max 0 (min 100 (jround q))) (by ring)

/-- Inserting under `prioGE` does not reorder the members of any one
priority class: filtering by an exact priority commutes with the insert. -/
lemma filter_orderedInsert (p : Priority) (r : FitRecommendation) :
    ∀ l : List FitRecommendation,
      (List.orderedInsert prioGE r l).filter (fun s => s.priority = p)
        = (r :: l).filter (fun s => s.priority = p) := by
  intro l
  induction l with
  | nil => rfl
  | cons x xs ih =>
    by_cases hx : prioGE r x
    · simp [List.orderedInsert, hx]
    · have hlt : prioVal r.priority < prioVal x.priority := by
        simpa [prioGE, not_le] using hx
      by_cases hxp : x.priority = p
      · have hrp : ¬ r.priority = p := by
          intro hrp
          rw [hxp, hrp] at hlt
          exact lt_irrefl _ hlt
        simp [List.orderedInsert, hx, List.filter, hxp, hrp, ih]
      · simp [List.orderedInsert, hx, List.filter, hxp, ih]

/-- Stability of the embedded sort: within one priority class the sorted
list keeps the original (rule-evaluation) order. -/
lemma filter_insertionSort (p : Priority) :
    ∀ l : List FitRecommendation,
      (List.insertionSort prioGE l).filter (fun s => s.priority = p)
        = l.filter (fun s => s.priority = p) := by
  intro l
  induction l with
  | nil => rfl
  | cons x xs ih =>
    calc (List.insertionSort prioGE (x :: xs)).filter (fun s => s.priority = p)
        = (x :: List.insertionSort prioGE xs).filter (fun s => s.priority = p) :=
          filter_orderedInsert p x (List.insertionSort prioGE xs)
      _ = (x :: xs).filter (fun s => s.priority = p) := by
          by_cases hxp : x.priority = p <;> simp [List.filter, hxp, ih]

/-- The fore/aft rule only emits `saddle_fore_aft` recommendations. -/
lemma kopsRule_no_saddle_height (kops : KOPSAnalysis) :
    (kopsRule kops).filter (fun r => r.type = RecType.saddle_height) = [] := by
  unfold kopsRule
  split_ifs <;> simp

/-- The handlebar rule only emits `handlebar_height` recommendations. -/
lemma handlebarRule_no_saddle_height (six three : PoseAnalysis) :
    (handlebarRule six three).filter (fun r => r.type = RecType.saddle_height) = [] := by
  simp only [handlebarRule]
  split_ifs <;> simp

/-- The stem rule only emits `stem_length` recommendations. -/
lemma stemRule_no_saddle_height (six three : PoseAnalysis) :
    (stemRule six three).filter (fun r => r.type = RecType.saddle_height) = [] := by
  simp only [stemRule]
  split_ifs <;> simp

/-- The core-stability rule only emits `core_stability` recommendations. -/
lemma coreStabilityRule_no_saddle_height (pc : PosturalConsistency) :
    (coreStabilityRule pc).filter (fun r => r.type = RecType.saddle_height) = [] := by
  unfold coreStabilityRule
  split_ifs <;> simp

/-- Everything the saddle-height rule emits has type `saddle_height`. -/
lemma saddleHeightRule_filter (six : PoseAnalysis) :
    (saddleHeightRule six).filter (fun r => r.type = RecType.saddle_height)
      = saddleHeightRule six := by
  unfold saddleHeightRule
  split_ifs <;> simp

/-- In rule-evaluation order, the `saddle_height` recommendations are
exactly those of the saddle-height rule. -/
lemma raw_filter_saddle_height (six three : PoseAnalysis) (kops : KOPSAnalysis)
    (pc : PosturalConsistency) :
    (rawRecommendations six three kops pc).filter (fun r => r.type = RecType.saddle_height)
      = saddleHeightRule six := by
  simp only [rawRecommendations, List.filter_append, kopsRule_no_saddle_height,
    handlebarRule_no_saddle_height, stemRule_no_saddle_height,
    coreStabilityRule_no_saddle_height, saddleHeightRule_filter, List.append_nil]

/-- C1: for every pair of photo feature records, a six-o'clock knee angle
in [25, 35] yields no `saddle_height` recommendation, and a six-o'clock
knee angle strictly below 25 or strictly above 35 yields exactly one
`saddle_height` recommendation, with priority `high` and
`recommendedValue = 30`. -/
theorem saddle_height_rec_iff_knee_out_of_band (six three : PoseAnalysis)
    (kops : KOPSAnalysis) (pc : PosturalConsistency) :
    ((25 ≤ six.kneeAngle ∧ six.kneeAngle ≤ 35) →
      ∀ r ∈ generateEnhancedRecommendations six three kops pc,
        r.type ≠ RecType.saddle_height)
    ∧ ((six.kneeAngle < 25 ∨ six.kneeAngle > 35) →
      ∃ rec, (generateEnhancedRecommendations six three kops pc).filter
          (fun r => r.type = RecType.saddle_height) = [rec]
        ∧ rec.type = RecType.saddle_height ∧ rec.priority = Priority.high
        ∧ rec.recommendedValue = 30 ∧ rec.currentValue = six.kneeAngle) := by
  have hperm : (generateEnhancedRecommendations six three kops pc).Perm
      (rawRecommendations six three kops pc) :=
    List.perm_insertionSort _ _
  have hfil := hperm.filter (fun r => decide (r.type = RecType.saddle_height))
  rw [raw_filter_saddle_height] at hfil
  constructor
  · rintro ⟨h1, h2⟩ r hr hrt
    have hnil : saddleHeightRule six = [] := by
      unfold saddleHeightRule
      rw [if_neg (not_lt.mpr h1), if_neg (not_lt.mpr h2)]
    rw [hnil] at hfil
    have hmem : r ∈ (generateEnhancedRecommendations six three kops pc).filter
        (fun r => r.type = RecType.saddle_height) := by
      simp only [List.mem_filter, decide_eq_true_eq]
      exact ⟨hr, hrt⟩
    rw [hfil.eq_nil] at hmem
    exact absurd hmem (List.not_mem_nil r)
  · intro h
    rcases h with h | h
    · have hone : saddleHeightRule six =
          [{ type := RecType.saddle_height
             currentValue := six.kneeAngle
             recommendedValue := 30
             adjustment := "Raise saddle by 5-15mm"
             priority := Priority.high
             basedOn := BasedOn.knee_angle }] := by
        unfold saddleHeightRule
        rw [if_pos h]
      rw [hone] at hfil
      exact ⟨_, List.perm_singleton.mp hfil, rfl, rfl, rfl, rfl⟩
    · have hone : saddleHeightRule six =
          [{ type := RecType.saddle_height
             currentValue := six.kneeAngle
             recommendedValue := 30
             adjustment := "Lower saddle by 5-15mm"
             priority := Priority.high
             basedOn := BasedOn.knee_angle }] := by
        unfold saddleHeightRule
        rw [if_neg (not_lt.mpr (by linarith)), if_pos h]
      rw [hone] at hfil
      exact ⟨_, List.perm_singleton.mp hfil, rfl, rfl, rfl, rfl⟩

/-- C8: the recommendation list is sorted descending by priority under
`high = 3 > medium = 2 > low = 1`, and the sort is stable: within each
priority class the sorted list keeps the rule-evaluation order. -/
theorem recommendations_sorted_descending_stable (six three : PoseAnalysis)
    (kops : KOPSAnalysis) (pc : PosturalConsistency) :
    List.Sorted prioGE (generateEnhancedRecommendations six three kops pc)
    ∧ ∀ p : Priority,
      (generateEnhancedRecommendations six three kops pc).filter (fun r => r.priority = p)
        = (rawRecommendations six three kops pc).filter (fun r => r.priority = p) :=
  ⟨List.sorted_insertionSort prioGE _, fun p => filter_insertionSort p _⟩

/-- C2: the enhanced score is an integer in [0, 100]; it equals 100 minus
the sum of six nonnegative deduction terms, rounded and clamped. -/
theorem overall_score_in_range (six three : PoseAnalysis) (kops : KOPSAnalysis)
    (pc : PosturalConsistency) :
    0 ≤ calculateEnhancedScore six three kops pc
    ∧ calculateEnhancedScore six three kops pc ≤ 100
    ∧ calculateEnhancedScore six three kops pc
      = max 0 (min 100 (jround (100 - (kneeDeduction six + threeOClockDeduction three
          + torsoDeduction six three + elbowDeduction six three + kopsDeduction kops
          + consistencyDeduction pc))))
    ∧ 0 ≤ kneeDeduction six ∧ 0 ≤ threeOClockDeduction three
    ∧ 0 ≤ torsoDeduction six three ∧ 0 ≤ elbowDeduction six three
    ∧ 0 ≤ kopsDeduction kops
    ∧ 0 ≤ consistencyDeduction (analyzePosturalConsistency six three) := by
  refine ⟨?_, ?_, score_eq_deductions six three kops pc, ?_, ?_, ?_, ?_, ?_, ?_⟩
  · rw [score_eq_deductions]
    exact le_max_left 0 _
  · rw [score_eq_deductions]
    exact max_le (by norm_num) (min_le_left _ _)
  · unfold kneeDeduction
    split_ifs
    · exact mul_nonneg (le_min (abs_nonneg _) (abs_nonneg _)) (by norm_num)
    · exact le_refl 0
  · unfold threeOClockDeduction
    split_ifs <;> norm_num
  · simp only [torsoDeduction]
    split_ifs
    · exact mul_nonneg (abs_nonneg _) (by norm_num)
    · exact le_refl 0
  · simp only [elbowDeduction]
    split_ifs
    · exact mul_nonneg (abs_nonneg _) (by norm_num)
    · exact le_refl 0
  · unfold kopsDeduction
    split_ifs
    · exact mul_nonneg (abs_nonneg _) (by norm_num)
    · exact le_refl 0
  · simp only [consistencyDeduction, analyzePosturalConsistency]
    split_ifs <;> positivity

/-- Sample six-o'clock record with every measured angle inside its
optimal band (mean torso angle 50, mean elbow angle 157.5). -/
def sixSample : PoseAnalysis :=
  { kneeAngle := 30, torsoAngle := 50, elbowAngle := 155, reachDistance := 40,
    saddleHeight := 70 }

/-- Sample three-o'clock record matching `sixSample`: knee inside
[60, 100], mean torso angle 50, mean elbow angle 157.5,
no landmark array attached. -/
def threeSample : PoseAnalysis :=
  { kneeAngle := 80, torsoAngle := 50, elbowAngle := 160, reachDistance := 40,
    saddleHeight := 70 }

/-- Counterexample to C3 as stated: with both torso angles 50 the mean
torso angle is 50, inside [35, 55], so the code deducts 0 rather than
the claimed |50 − 45| × 1 = 5, and the whole enhanced score stays 100. -/
theorem torso_deduction_cex :
    torsoDeduction sixSample threeSample
        ≠ |(sixSample.torsoAngle + threeSample.torsoAngle) / 2 - 45| * 1
      ∧ torsoDeduction sixSample threeSample = 0
      ∧ |(sixSample.torsoAngle + threeSample.torsoAngle) / 2 - 45| * 1 = 5
      ∧ calculateEnhancedScore sixSample threeSample defaultKOPSAnalysis
          (analyzePosturalConsistency sixSample threeSample) = 100 := by
  refine ⟨?_, ?_, ?_, ?_⟩
  · norm_num [torsoDeduction, sixSample, threeSample]
  · norm_num [torsoDeduction, sixSample, threeSample]
  · norm_num [sixSample, threeSample]
  · norm_num [calculateEnhancedScore, sixSample, threeSample, defaultKOPSAnalysis,
      analyzePosturalConsistency, jround]

/-- C3 (amended): the torso deduction of the enhanced score equals
|meanTorsoAngle − 45| × 1 when the mean torso angle lies outside
[35, 55], and 0 when it lies inside [35, 55]; the enhanced score is 100
minus the sum of the deduction terms, rounded and clamped. -/
theorem torso_deduction_banded (six three : PoseAnalysis) (kops : KOPSAnalysis)
    (pc : PosturalConsistency) :
    (((six.torsoAngle + three.torsoAngle) / 2 < 35
        ∨ (six.torsoAngle + three.torsoAngle) / 2 > 55) →
      torsoDeduction six three = |(six.torsoAngle + three.torsoAngle) / 2 - 45| * 1)
    ∧ ((35 ≤ (six.torsoAngle + three.torsoAngle) / 2
        ∧ (six.torsoAngle + three.torsoAngle) / 2 ≤ 55) →
      torsoDeduction six three = 0)
    ∧ calculateEnhancedScore six three kops pc
      = max 0 (min 100 (jround (100 - (kneeDeduction six + threeOClockDeduction three
          + torsoDeduction six three + elbowDeduction six three + kopsDeduction kops
          + consistencyDeduction pc)))) := by
  refine ⟨?_, ?_, score_eq_deductions six three kops pc⟩
  · intro h
    simp only [torsoDeduction]
    rw [if_pos h]
  · rintro ⟨h1, h2⟩
    simp only [torsoDeduction]
    rw [if_neg (not_or.mpr ⟨not_lt.mpr h1, not_lt.mpr h2⟩)]

/-- Record used to exercise the out-of-band branches: torso angles
averaging 60 and a three-o'clock knee angle far outside [60, 100]. -/
def threeOutlier : PoseAnalysis :=
  { kneeAngle := 150, torsoAngle := 70, elbowAngle := 160, reachDistance := 40,
    saddleHeight := 70 }

/-- Witness for the amended C3 at a concrete out-of-band input: torso
angles 50 and 70 average 60 > 55, so the deduction is |60 − 45| × 1. -/
theorem torso_deduction_banded_witness :
    torsoDeduction sixSample threeOutlier
      = |(sixSample.torsoAngle + threeOutlier.torsoAngle) / 2 - 45| * 1 :=
  (torso_deduction_banded sixSample threeOutlier defaultKOPSAnalysis
    (analyzePosturalConsistency sixSample threeOutlier)).1 (Or.inr (by norm_num [sixSample, threeOutlier]))

/-- C4: the three-o'clock sanity check never touches the recommendation
list (which does not depend on the three-o'clock knee angle at all); it
contributes exactly 10 points to the deductions when the three-o'clock
knee angle leaves [60, 100] and 0 points inside, and raises the
diagnostic flag exactly outside the band. -/
theorem three_oclock_check_scoring_only (six three : PoseAnalysis) (kops : KOPSAnalysis)
    (pc : PosturalConsistency) (k : ℚ) :
    generateEnhancedRecommendations six three kops pc
      = generateEnhancedRecommendations six { three with kneeAngle := k } kops pc
    ∧ ((three.kneeAngle < 60 ∨ three.kneeAngle > 100) →
        threeOClockDeduction three = 10 ∧ threeOClockSanityFlag three = true)
    ∧ ((60 ≤ three.kneeAngle ∧ three.kneeAngle ≤ 100) →
        threeOClockDeduction three = 0 ∧ threeOClockSanityFlag three = false)
    ∧ calculateEnhancedScore six three kops pc
      = max 0 (min 100 (jround (100 - (kneeDeduction six + threeOClockDeduction three
          + torsoDeduction six three + elbowDeduction six three + kopsDeduction kops
          + consistencyDeduction pc)))) := by
  refine ⟨rfl, ?_, ?_, score_eq_deductions six three kops pc⟩
  · intro h
    refine ⟨?_, ?_⟩
    · unfold threeOClockDeduction
      rw [if_pos h]
    · unfold threeOClockSanityFlag
      rcases h with h | h <;> simp [h]
  · rintro ⟨h1, h2⟩
    refine ⟨?_, ?_⟩
    · unfold threeOClockDeduction
      rw [if_neg (not_or.mpr ⟨not_lt.mpr h1, not_lt.mpr h2⟩)]
    · unfold threeOClockSanityFlag
      simp only [Bool.or_eq_false_iff, decide_eq_false_iff_not]
      exact ⟨not_lt.mpr h1, not_lt.mpr h2⟩

/-- Witness for C4 at concrete inputs: a three-o'clock knee angle of 150
deducts the fixed 10 points and flags, one of 80 deducts nothing. -/
theorem three_oclock_check_scoring_only_witness :
    (threeOClockDeduction threeOutlier = 10 ∧ threeOClockSanityFlag threeOutlier = true)
    ∧ (threeOClockDeduction threeSample = 0 ∧ threeOClockSanityFlag threeSample = false) :=
  ⟨(three_oclock_check_scoring_only sixSample threeOutlier defaultKOPSAnalysis
      (analyzePosturalConsistency sixSample threeOutlier) 0).2.1
        (Or.inr (by norm_num [threeOutlier])),
   (three_oclock_check_scoring_only sixSample threeSample defaultKOPSAnalysis
      (analyzePosturalConsistency sixSample threeSample) 0).2.2.1
        ⟨by norm_num [threeSample], by norm_num [threeSample]⟩⟩

/-- The two issue strings of the consistency analyzer are distinct. -/
lemma issue_strings_ne : torsoInstabilityIssue ≠ elbowInstabilityIssue := by
  decide

/-- C5: the postural-consistency result is consistent exactly when the
torso delta is at most 10 and the elbow delta is at most 15; each issue
is raised exactly when its threshold is exceeded; consistency holds
exactly when the issue list is empty; and the stored deltas are the
absolute angle differences (the computation is a total function). -/
theorem postural_consistency_characterization (six three : PoseAnalysis) :
    ((analyzePosturalConsistency six three).isConsistent = true ↔
      |six.torsoAngle - three.torsoAngle| ≤ 10 ∧ |six.elbowAngle - three.elbowAngle| ≤ 15)
    ∧ ((analyzePosturalConsistency six three).isConsistent = true ↔
      (analyzePosturalConsistency six three).issues = [])
    ∧ (torsoInstabilityIssue ∈ (analyzePosturalConsistency six three).issues ↔
      |six.torsoAngle - three.torsoAngle| > 10)
    ∧ (elbowInstabilityIssue ∈ (analyzePosturalConsistency six three).issues ↔
      |six.elbowAngle - three.elbowAngle| > 15)
    ∧ (analyzePosturalConsistency six three).torsoAngleDifference
      = |six.torsoAngle - three.torsoAngle|
    ∧ (analyzePosturalConsistency six three).elbowAngleDifference
      = |six.elbowAngle - three.elbowAngle| := by
  have hne := issue_strings_ne
  have hne2 : elbowInstabilityIssue ≠ torsoInstabilityIssue := fun hh => hne hh.symm
  simp only [analyzePosturalConsistency]
  split_ifs with h1 h2 h2
  · exact ⟨by simp [not_le.mpr h1], by simp, by simp [h1], by simp [h2], trivial, trivial⟩
  · exact ⟨by simp [not_le.mpr h1], by simp, by simp [h1], by simp [hne2, h2], trivial, trivial⟩
  · exact ⟨by simp [not_le.mpr h2], by simp, by simp [hne, h1], by simp [h2], trivial, trivial⟩
  · exact ⟨by simp [not_lt.mp h1, not_lt.mp h2], by simp, by simp [h1], by simp [h2], trivial, trivial⟩

/-- C9: per-photo feature extraction fails exactly when the landmark
array has fewer than 33 entries or one of the six required right-side
joints is absent, and otherwise returns a feature record; this holds for
any geometry oracle because the extractor never branches on angle
values. -/
theorem feature_extraction_error_iff (g : GeometryOracle)
    (landmarks : List (Option Landmark)) (pos : PedalPosition) (w h : Option ℚ) :
    ((∃ msg, analyzeBikeFit g landmarks pos w h = Except.error msg) ↔
      (landmarks.length < 33
        ∨ getLm landmarks PoseLandmarks.RIGHT_SHOULDER = none
        ∨ getLm landmarks PoseLandmarks.RIGHT_ELBOW = none
        ∨ getLm landmarks PoseLandmarks.RIGHT_WRIST = none
        ∨ getLm landmarks PoseLandmarks.RIGHT_HIP = none
        ∨ getLm landmarks PoseLandmarks.RIGHT_KNEE = none
        ∨ getLm landmarks PoseLandmarks.RIGHT_ANKLE = none))
    ∧ (¬ (landmarks.length < 33
        ∨ getLm landmarks PoseLandmarks.RIGHT_SHOULDER = none
        ∨ getLm landmarks PoseLandmarks.RIGHT_ELBOW = none
        ∨ getLm landmarks PoseLandmarks.RIGHT_WRIST = none
        ∨ getLm landmarks PoseLandmarks.RIGHT_HIP = none
        ∨ getLm landmarks PoseLandmarks.RIGHT_KNEE = none
        ∨ getLm landmarks PoseLandmarks.RIGHT_ANKLE = none) →
      ∃ analysis, analyzeBikeFit g landmarks pos w h = Except.ok analysis) := by
  unfold analyzeBikeFit
  by_cases hlen : landmarks.length < 33
  · simp [hlen]
  · rw [if_neg hlen]
    rcases h1 : getLm landmarks PoseLandmarks.RIGHT_SHOULDER with _ | shoulder <;>
      rcases h2 : getLm landmarks PoseLandmarks.RIGHT_ELBOW with _ | elbow <;>
        rcases h3 : getLm landmarks PoseLandmarks.RIGHT_WRIST with _ | wrist <;>
          rcases h4 : getLm landmarks PoseLandmarks.RIGHT_HIP with _ | hip <;>
            rcases h5 : getLm landmarks PoseLandmarks.RIGHT_KNEE with _ | knee <;>
              rcases h6 : getLm landmarks PoseLandmarks.RIGHT_ANKLE with _ | ankle <;>
                simp [hlen, h1, h2, h3, h4, h5, h6]

/-- C6: when the knee and ankle entries are present and a positive image
width is supplied, the KOPS offset is `(knee.x − ankle.x) × width × 0.05`
and optimality holds exactly when the absolute offset is at most 2 cm;
with coincident knee and ankle x the offset is 0 and the result optimal
for every (even absent) image width. -/
theorem kops_offset_formula (landmarks : List (Option Landmark)) (w : ℚ)
    (knee ankle : Landmark)
    (hk : getLm landmarks RouteLandmarks.RIGHT_KNEE = some knee)
    (ha : getLm landmarks RouteLandmarks.RIGHT_ANKLE = some ankle)
    (hw : 0 < w) :
    (∃ res, calculateKOPS landmarks (some w) = some res
      ∧ res.horizontalOffset = (knee.x - ankle.x) * w * 0.05
      ∧ (res.isOptimal = true ↔ |res.horizontalOffset| ≤ 2)
      ∧ res.kneePosition = ⟨knee.x, knee.y⟩ ∧ res.pedalPosition = ⟨ankle.x, ankle.y⟩)
    ∧ (knee.x = ankle.x → ∀ anyWidth : Option ℚ,
        ∃ res, calculateKOPS landmarks anyWidth = some res
          ∧ res.horizontalOffset = 0 ∧ res.isOptimal = true) := by
  constructor
  · unfold calculateKOPS
    rw [hk, ha]
    refine ⟨_, rfl, ?_, ?_, rfl, rfl⟩
    · show (knee.x - ankle.x) * jsOr (some w) 640 * 0.05 = (knee.x - ankle.x) * w * 0.05
      simp only [jsOr]
      rw [if_neg hw.ne']
    · simp only [decide_eq_true_eq]
  · intro hx anyWidth
    unfold calculateKOPS
    rw [hk, ha]
    have hz : (knee.x - ankle.x) * jsOr anyWidth 640 * 0.05 = 0 := by
      rw [hx, sub_self, zero_mul, zero_mul]
    refine ⟨_, rfl, hz, ?_⟩
    simp only [hz, decide_eq_true_eq]
    norm_num

/-- A filler landmark for sample arrays. -/
def fillerLm : Landmark := { x := 0.1, y := 0.2, z := 0.3 }

/-- Sample knee landmark. -/
def kneeLm : Landmark := { x := 0.6, y := 0.5, z := 0 }

/-- Sample ankle landmark. -/
def ankleLm : Landmark := { x := 0.55, y := 0.8, z := 0 }

/-- A 28-entry landmark array with the knee at index 25 and the ankle at
index 27, as `calculateKOPS` reads them. -/
def kopsLms : List (Option Landmark) :=
  List.replicate 25 (some fillerLm) ++ [some kneeLm, some fillerLm, some ankleLm]

/-- Witness for C6: the first component of the theorem at the concrete
array `kopsLms` and image width 640. -/
theorem kops_offset_formula_witness :
    ∃ res, calculateKOPS kopsLms (some 640) = some res
      ∧ res.horizontalOffset = (kneeLm.x - ankleLm.x) * 640 * 0.05
      ∧ (res.isOptimal = true ↔ |res.horizontalOffset| ≤ 2)
      ∧ res.kneePosition = ⟨kneeLm.x, kneeLm.y⟩
      ∧ res.pedalPosition = ⟨ankleLm.x, ankleLm.y⟩ :=
  (kops_offset_formula kopsLms 640 kneeLm ankleLm (by rfl) (by rfl) (by norm_num)).1

/-- C7: when the three-o'clock landmark array lacks its knee or ankle
entry, `calculateKOPS` fails and the two-photo pipeline substitutes the
neutral default KOPS result (offset 0, optimal) while the rest of the
report (consistency, recommendations, score, summary) is still produced
exactly as with that default. -/
theorem kops_failure_uses_default (sixA threeA : PoseAnalysis)
    (h : getLm (threeA.landmarks.getD []) RouteLandmarks.RIGHT_KNEE = none
       ∨ getLm (threeA.landmarks.getD []) RouteLandmarks.RIGHT_ANKLE = none) :
    calculateKOPS (threeA.landmarks.getD []) threeA.imageWidth = none
    ∧ (twoPhotoAnalysis sixA threeA).kopsAnalysis = defaultKOPSAnalysis
    ∧ defaultKOPSAnalysis.horizontalOffset = 0 ∧ defaultKOPSAnalysis.isOptimal = true
    ∧ twoPhotoAnalysis sixA threeA =
      { sixOClockAnalysis := sixA
        threeOClockAnalysis := threeA
        kopsAnalysis := defaultKOPSAnalysis
        posturalConsistency := analyzePosturalConsistency sixA threeA
        recommendations := generateEnhancedRecommendations sixA threeA defaultKOPSAnalysis
          (analyzePosturalConsistency sixA threeA)
        overallScore := calculateEnhancedScore sixA threeA defaultKOPSAnalysis
          (analyzePosturalConsistency sixA threeA)
        summary :=
          if calculateEnhancedScore sixA threeA defaultKOPSAnalysis
              (analyzePosturalConsistency sixA threeA) ≥ 80 then excellentSummary
          else if calculateEnhancedScore sixA threeA defaultKOPSAnalysis
              (analyzePosturalConsistency sixA threeA) ≥ 60 then goodSummary
          else significantSummary } := by
  have hnone : calculateKOPS (threeA.landmarks.getD []) threeA.imageWidth = none := by
    unfold calculateKOPS
    rcases hk : getLm (threeA.landmarks.getD []) RouteLandmarks.RIGHT_KNEE with _ | k <;>
      rcases ha : getLm (threeA.landmarks.getD []) RouteLandmarks.RIGHT_ANKLE with _ | a <;>
        try rfl
    exfalso
    rcases h with h | h
    · rw [hk] at h
      exact Option.noConfusion h
    · rw [ha] at h
      exact Option.noConfusion h
  have hget : (twoPhotoAnalysis sixA threeA).kopsAnalysis = defaultKOPSAnalysis := by
    unfold twoPhotoAnalysis
    rw [hnone]
    rfl
  refine ⟨hnone, hget, rfl, rfl, ?_⟩
  unfold twoPhotoAnalysis
  rw [hnone]
  rfl

/-- Witness for C7: with `threeSample` (which carries no landmark
array), KOPS fails and the neutral default is substituted. -/
theorem kops_failure_uses_default_witness :
    calculateKOPS ((threeSample.landmarks).getD []) threeSample.imageWidth = none
    ∧ (twoPhotoAnalysis sixSample threeSample).kopsAnalysis = defaultKOPSAnalysis :=
  ⟨(kops_failure_uses_default sixSample threeSample (Or.inl rfl)).1,
   (kops_failure_uses_default sixSample threeSample (Or.inl rfl)).2.1⟩

/-- C10: the KOPS result depends only on the entries at indices 25 and
27; in the feature extractor's MediaPipe index scheme those are the LEFT
knee and LEFT ankle, while the extractor itself reads the right knee at
26 and the right ankle at 28 — different joints. -/
theorem kops_depends_only_on_left_indices (l1 l2 : List (Option Landmark)) (w : Option ℚ)
    (h25 : getLm l1 RouteLandmarks.RIGHT_KNEE = getLm l2 RouteLandmarks.RIGHT_KNEE)
    (h27 : getLm l1 RouteLandmarks.RIGHT_ANKLE = getLm l2 RouteLandmarks.RIGHT_ANKLE) :
    calculateKOPS l1 w = calculateKOPS l2 w
    ∧ RouteLandmarks.RIGHT_KNEE = PoseLandmarks.LEFT_KNEE
    ∧ RouteLandmarks.RIGHT_ANKLE = PoseLandmarks.LEFT_ANKLE
    ∧ PoseLandmarks.RIGHT_KNEE = 26
    ∧ PoseLandmarks.RIGHT_ANKLE = 28
    ∧ RouteLandmarks.RIGHT_KNEE ≠ PoseLandmarks.RIGHT_KNEE
    ∧ RouteLandmarks.RIGHT_ANKLE ≠ PoseLandmarks.RIGHT_ANKLE := by
  refine ⟨?_, rfl, rfl, rfl, rfl, by decide, by decide⟩
  unfold calculateKOPS
  rw [h25, h27]

/-- The sample array with every entry other than the knee and ankle
replaced: KOPS cannot tell it apart from `kopsLms`. -/
def kopsLmsAlt : List (Option Landmark) :=
  List.replicate 25 (some ankleLm) ++ [some kneeLm, some kneeLm, some ankleLm]

/-- Witness for C10: two arrays agreeing only at indices 25 and 27 get
identical KOPS results. -/
theorem kops_depends_only_on_left_indices_witness :
    calculateKOPS kopsLms (some 640) = calculateKOPS kopsLmsAlt (some 640) :=
  (kops_depends_only_on_left_indices kopsLms kopsLmsAlt (some 640) rfl rfl).1

/-- Sample six-o'clock record with the knee too straight (20° < 25). -/
def sixLowKnee : PoseAnalysis :=
  { kneeAngle := 20, torsoAngle := 50, elbowAngle := 155, reachDistance := 40,
    saddleHeight := 70 }

/-- Witness for C1 at concrete inputs: an in-band knee angle of 30 yields
no saddle-height recommendation, an out-of-band knee angle of 20 yields
exactly one, with priority high and recommended value 30. -/
theorem saddle_height_rec_iff_knee_out_of_band_witness :
    (∀ r ∈ generateEnhancedRecommendations sixSample threeSample defaultKOPSAnalysis
        (analyzePosturalConsistency sixSample threeSample), r.type ≠ RecType.saddle_height)
    ∧ ∃ rec, (generateEnhancedRecommendations sixLowKnee threeSample defaultKOPSAnalysis
        (analyzePosturalConsistency sixLowKnee threeSample)).filter
          (fun r => r.type = RecType.saddle_height) = [rec]
      ∧ rec.type = RecType.saddle_height ∧ rec.priority = Priority.high
      ∧ rec.recommendedValue = 30 ∧ rec.currentValue = sixLowKnee.kneeAngle :=
  ⟨(saddle_height_rec_iff_knee_out_of_band sixSample threeSample defaultKOPSAnalysis
      (analyzePosturalConsistency sixSample threeSample)).1
        ⟨by norm_num [sixSample], by norm_num [sixSample]⟩,
   (saddle_height_rec_iff_knee_out_of_band sixLowKnee threeSample defaultKOPSAnalysis
      (analyzePosturalConsistency sixLowKnee threeSample)).2 (Or.inl (by norm_num [sixLowKnee]))⟩

end BikeFit
